import Mathlib

/-
Verification of the systemd cryptsetup unit generator
(src/cryptsetup/cryptsetup-generator.c, RHEL 8 branch).

The development shallowly embeds the generator's data model and control
flow:

  * crypto_device / GenState mirror the C struct crypto_device and the
    process-wide globals (arg_enabled, arg_read_crypttab, arg_whitelist,
    arg_disks, arg_default_options, arg_default_keyfile);
  * parse_proc_cmdline_item models the kernel command line parser;
  * create_disk models the unit synthesizer up to the artifact record it
    emits (DiskUnit) or the rejection it returns (CreateError);
  * add_crypttab_devices / add_proc_cmdline_devices model the two
    synthesis passes.

External collaborators that the generator only calls (path-to-device-node
resolution, string escaping, unit name construction, timeout-option
filtering) are threaded through an explicit record of functions (Ext);
theorems quantify over it.  Library helpers whose source is not part of
this repository snapshot (strstrip, sscanf token splitting, strspn,
fstab option matching, path_equal, path_startswith, id128_is_valid,
parse_boolean) are reproduced here from their documented semantics.
-/

set_option maxRecDepth 4096

namespace CryptsetupGen

/-! ### Character classes used by the C code -/

/-- C isspace for the default locale: the whitespace set used by strstrip
and by the sscanf whitespace/token conversions. -/
def isCWhitespace (c : Char) : Bool :=
  c == ' ' || c == '\t' || c == '\n' || c == '\r' || c == '\x0b' || c == '\x0c'

/-- Hexadecimal digit, as accepted by id128_is_valid and by the
sscanf scanset 0-9a-fA-F. -/
def isHexC (c : Char) : Bool :=
  c.isDigit || "abcdefABCDEF".data.contains c

/-- Character of the sscanf scanset 0-9a-fA-F plus dash, used by the
luks.options and luks.name value parsers. -/
def isHexDashC (c : Char) : Bool :=
  isHexC c || c == '-'

/-- Character of the strspn set LETTERS DIGITS "-" (equal to
ALPHANUMERICAL "-"), used by the luks.key, luks.hdr and luks.data value
parsers. -/
def isAlnumDashC (c : Char) : Bool :=
  c.isAlphanum || c == '-'

/-! ### String helpers modelling libc / basic string-util behaviour -/

/-- strstrip: drop leading and trailing C whitespace. -/
def strstrip (s : String) : String :=
  String.mk (((s.data.dropWhile isCWhitespace).reverse.dropWhile isCWhitespace).reverse)

/-- Tokenizer shared by the sscanf %ms conversions (separator = C
whitespace) and by the fstab option word splitting (separator = comma):
maximal runs of non-separator characters, empty runs skipped. -/
def tokensGo (sep : Char → Bool) : List Char → List Char → List String
  | [], acc => if acc.isEmpty then [] else [String.mk acc.reverse]
  | c :: rest, acc =>
    if sep c then
      if acc.isEmpty then tokensGo sep rest []
      else String.mk acc.reverse :: tokensGo sep rest []
    else tokensGo sep rest (c :: acc)

def tokens (sep : Char → Bool) (s : String) : List String :=
  tokensGo sep s.data []

/-- Whitespace-separated fields, as produced by consecutive sscanf %ms
conversions. -/
def cwords (s : String) : List String :=
  tokens isCWhitespace s

/-- Comma-separated option words, as produced by FOREACH_WORD_SEPARATOR
and strv_split (empty words are skipped by both). -/
def commaWords (s : String) : List String :=
  tokens (fun c => c == ',') s

/-- C startswith: on a literal prefix match return the remainder of the
string, otherwise NULL. -/
def c_startswith (s pre : String) : Option String :=
  if s.data.take pre.data.length = pre.data then some (String.mk (s.data.drop pre.data.length))
  else none

/-- strrchr-based split used by the luks.key value parser: split at the
last colon, returning the parts before and after it. -/
def split_last_colon (s : String) : Option (String × String) :=
  if s.data.any (fun c => c == ':') then
    let revAfter := s.data.reverse.takeWhile (fun c => c ≠ ':')
    some (String.mk ((s.data.reverse.drop (revAfter.length + 1)).reverse),
          String.mk revAfter.reverse)
  else none

/-! ### Path predicates (path-util.c semantics) -/

/-- Absolute-path flag: path[0] == '/'. -/
def path_is_absolute (s : String) : Bool :=
  s.data.headD '\x00' == '/'

/-- Path components: slash-separated non-empty segments, as compared by
path_compare. -/
def path_components (s : String) : List String :=
  tokens (fun c => c == '/') s

/-- path_equal: equal absolute/relative flavour and equal component
sequences (duplicate slashes are insignificant). -/
def path_equal (a b : String) : Bool :=
  path_is_absolute a == path_is_absolute b && path_components a == path_components b

/-- Loop body of path_startswith.  Fuel bounds the iteration count; every
iteration consumes at least one character of the prefix, so
prefix length + 1 units of fuel always suffice. -/
def pswGo : Nat → List Char → List Char → Option (List Char)
  | 0, _, _ => none
  | fuel + 1, p, q =>
    let p' := p.dropWhile (fun c => c == '/')
    let q' := q.dropWhile (fun c => c == '/')
    if q'.isEmpty then some p'
    else if p'.isEmpty then none
    else
      let a := p'.takeWhile (fun c => c ≠ '/')
      let b := q'.takeWhile (fun c => c ≠ '/')
      if a = b then pswGo fuel (p'.drop a.length) (q'.drop b.length) else none

/-- path_startswith: if every component of the prefix matches the path's
components in turn (and both are absolute or both relative), return the
remainder of the path after the matched components, else NULL. -/
def path_startswith (path pre : String) : Option String :=
  if (path_is_absolute path == path_is_absolute pre) = false then none
  else (pswGo (pre.data.length + 1) path.data pre.data).map String.mk

/-! ### Miscellaneous library models -/

/-- parse_boolean from parse-util.c: 1/yes/y/true/t/on and
0/no/n/false/f/off, the words case-insensitively. -/
def parse_boolean (v : String) : Option Bool :=
  let lower := String.mk (v.data.map Char.toLower)
  if v == "1" || lower == "yes" || lower == "y" || lower == "true" || lower == "t" || lower == "on" then
    some true
  else if v == "0" || lower == "no" || lower == "n" || lower == "false" || lower == "f" || lower == "off" then
    some false
  else none

/-- Modelled from the spec: the spec requires identifiers of luks.key,
luks.hdr and luks.data to be "a syntactically valid UUID"
(id128-util.c is not part of this snapshot).  The two accepted textual
forms of a 128-bit id are 32 hex digits, or the 36-character hyphenated
form with dashes at offsets 8, 13, 18 and 23 and hex digits elsewhere. -/
def id128_is_valid (s : String) : Bool :=
  let l := s.data
  if l.length = 32 then l.all isHexC
  else if l.length = 36 then
    l.enum.all (fun ic =>
      if ic.1 = 8 || ic.1 = 13 || ic.1 = 18 || ic.1 = 23 then ic.2 == '-'
      else isHexC ic.2)
  else false

/-- C a ?: b on optional values. -/
def elvis {α : Type} (a b : Option α) : Option α :=
  match a with
  | some x => some x
  | none => b

/-! ### fstab option handling (fstab-util.c semantics) -/

/-- One option word matches a name when it is the name itself or the name
followed by an equals sign; in the latter case the part after the equals
sign is the option's value. -/
def fstab_match_token (name tok : String) : Option (Option String) :=
  if tok == name then some none
  else
    match c_startswith tok (name ++ "=") with
    | some rest => some (some rest)
    | none => none

structure FstabFilter where
  found : Bool
  value : Option String
  filtered : String
  deriving Repr, DecidableEq

/-- fstab_filter_options for a single option name: whether any word
matches, the value carried by the last matching word (a valueless match
resets it to NULL), and the remaining words rejoined by commas. -/
def fstab_filter_options (opts : Option String) (name : String) : FstabFilter :=
  match opts with
  | none => ⟨false, none, ""⟩
  | some o =>
    let toks := commaWords o
    let ms := toks.filterMap (fstab_match_token name)
    let keep := toks.filter (fun t => (fstab_match_token name t).isNone)
    ⟨!ms.isEmpty, (ms.getLast?).bind id, String.intercalate "," keep⟩

/-- fstab_test_option: the named flag occurs among the option words. -/
def fstab_test_option (opts : Option String) (name : String) : Bool :=
  (fstab_filter_options opts name).found

/-- fstab_test_yes_no_option: the last occurrence of either name decides;
true when it is the first (yes) name, false when it is the second or when
neither occurs. -/
def fstab_test_yes_no_option (opts : Option String) (yes no : String) : Bool :=
  match opts with
  | none => false
  | some o =>
    let ms := (commaWords o).filterMap (fun t =>
      if (fstab_match_token yes t).isSome then some true
      else if (fstab_match_token no t).isSome then some false
      else none)
    match ms.getLast? with
    | some b => b
    | none => false

/-! ### External collaborators (consumed, not implemented, by the core) -/

/-- Record of external collaborator functions: node resolution, escaping,
unit name construction, path joining and timeout-option filtering.  The
generator only threads their results through; all theorems hold for every
choice of collaborators. -/
structure Ext where
  fstab_node_to_udev_node : String → String
  specifier_escape : String → String
  unit_name_escape : String → String
  cescape : String → String
  unit_name_from_path : String → String → String
  unit_name_build : String → String → String → String
  prefix_root : String → String → String
  path_join : String → String → String
  generator_write_timeouts : Option String → Option String

/-- Trivial instantiation of the collaborators, used to run the model on
concrete inputs. -/
def idExt : Ext where
  fstab_node_to_udev_node := id
  specifier_escape := id
  unit_name_escape := id
  cescape := id
  unit_name_from_path := fun p suffix => p ++ suffix
  unit_name_build := fun pre inst suffix => pre ++ "@" ++ inst ++ suffix
  prefix_root := fun root p => root ++ "/" ++ p
  path_join := fun a b => a ++ "/" ++ b
  generator_write_timeouts := fun o => o

/-! ### Data model -/

/-- struct crypto_device. -/
structure crypto_device where
  uuid : String
  keyfile : Option String
  keydev : Option String
  hdrdev : Option String
  datadev : Option String
  name : Option String
  options : Option String
  create : Bool
  deriving Repr, DecidableEq

def new_device (uuid : String) : crypto_device :=
  ⟨uuid, none, none, none, none, none, none, false⟩

/-- Process-wide state: the static globals of the generator. -/
structure GenState where
  arg_enabled : Bool
  arg_read_crypttab : Bool
  arg_whitelist : Bool
  arg_disks : List crypto_device
  arg_default_options : Option String
  arg_default_keyfile : Option String
  deriving Repr, DecidableEq

def initial_state : GenState :=
  ⟨true, true, false, [], none, none⟩

/-! ### The device registry (hashmap arg_disks) -/

def contains_uuid (l : List crypto_device) (u : String) : Bool :=
  l.any (fun d => d.uuid == u)

/-- hashmap_get on the registry. -/
def hashmap_get (l : List crypto_device) (u : String) : Option crypto_device :=
  l.find? (fun d => d.uuid == u)

/-- Allocation part of get_crypto_device: add a fresh record when the
uuid has none yet. -/
def get_or_create (l : List crypto_device) (u : String) : List crypto_device :=
  if contains_uuid l u then l else l ++ [new_device u]

/-- Mutation through the pointer returned by get_crypto_device: rewrite
the record with the given uuid. -/
def set_device (l : List crypto_device) (u : String) (f : crypto_device → crypto_device) :
    List crypto_device :=
  l.map (fun d => if d.uuid = u then f d else d)

/-! ### Kernel command line parsing (parse_proc_cmdline_item) -/

/-- sscanf(value, "%m[0-9a-fA-F-]=%ms", ...): a non-empty run of hex/dash
characters, immediately an equals sign, then a non-empty whitespace-
delimited token (leading whitespace skipped).  Returns the two captures
when both conversions succeed (r == 2). -/
def scan_uuid_eq (v : String) : Option (String × String) :=
  let u := v.data.takeWhile isHexDashC
  if u.isEmpty then none
  else
    match v.data.drop u.length with
    | '=' :: rest =>
      let rest' := rest.dropWhile isCWhitespace
      let tok := rest'.takeWhile (fun c => !isCWhitespace c)
      if tok.isEmpty then none else some (String.mk u, String.mk tok)
    | _ => none

/-- Branch of parse_proc_cmdline_item for the luks switch. -/
def luks_enable_apply (st : GenState) (value : Option String) : GenState :=
  match value with
  | none => { st with arg_enabled := true }
  | some v =>
    match parse_boolean v with
    | none => st
    | some b => { st with arg_enabled := b }

/-- Branch of parse_proc_cmdline_item for the luks.crypttab switch. -/
def luks_crypttab_apply (st : GenState) (value : Option String) : GenState :=
  match value with
  | none => { st with arg_read_crypttab := true }
  | some v =>
    match parse_boolean v with
    | none => st
    | some b => { st with arg_read_crypttab := b }

/-- Branch of parse_proc_cmdline_item for the luks.uuid switch: a
"luks-" prefix is stripped from the value, the record is created or
looked up, and its create flag plus the whitelist flag are set. -/
def luks_uuid_apply (st : GenState) (v : String) : GenState :=
  let u := match c_startswith v "luks-" with
    | some rest => rest
    | none => v
  { st with
      arg_disks := set_device (get_or_create st.arg_disks u) u
        (fun d => { d with create := true })
      arg_whitelist := true }

/-- Branch of parse_proc_cmdline_item for the luks.options switch: on
the identifier=options shape the record's options are replaced, else the
value becomes the process-wide default options. -/
def luks_options_apply (st : GenState) (v : String) : GenState :=
  match scan_uuid_eq v with
  | some uv =>
    { st with
        arg_disks := set_device (get_or_create st.arg_disks uv.1) uv.1
          (fun d => { d with options := some uv.2 }) }
  | none => { st with arg_default_options := some v }

/-- Branch of parse_proc_cmdline_item for the luks.key switch: without
an identifier= prefix the value becomes the default keyfile; with an
invalid UUID the switch is dropped; otherwise keyfile and key device are
split at the last colon and stored (replacing both fields). -/
def luks_key_apply (st : GenState) (v : String) : GenState :=
  let n := (v.data.takeWhile isAlnumDashC).length
  if (v.data.getD n '\x00' == '=') = false then
    { st with arg_default_keyfile := some v }
  else
    let u := String.mk (v.data.take n)
    if id128_is_valid u = false then st
    else
      let keyspec := String.mk (v.data.drop (n + 1))
      match split_last_colon keyspec with
      | some kv =>
        { st with
            arg_disks := set_device (get_or_create st.arg_disks u) u
              (fun d => { d with keyfile := some kv.1, keydev := some kv.2 }) }
      | none =>
        { st with
            arg_disks := set_device (get_or_create st.arg_disks u) u
              (fun d => { d with keyfile := some keyspec, keydev := none }) }

/-- Branch of parse_proc_cmdline_item for the luks.hdr switch. -/
def luks_hdr_apply (ext : Ext) (st : GenState) (v : String) : GenState :=
  let n := (v.data.takeWhile isAlnumDashC).length
  if (v.data.getD n '\x00' == '=') = false then st
  else
    let u := String.mk (v.data.take n)
    if id128_is_valid u = false then st
    else
      let hdrdev := ext.fstab_node_to_udev_node (String.mk (v.data.drop (n + 1)))
      { st with
          arg_disks := set_device (get_or_create st.arg_disks u) u
            (fun d => { d with hdrdev := some hdrdev }) }

/-- Branch of parse_proc_cmdline_item for the luks.data switch. -/
def luks_data_apply (ext : Ext) (st : GenState) (v : String) : GenState :=
  let n := (v.data.takeWhile isAlnumDashC).length
  if (v.data.getD n '\x00' == '=') = false then st
  else
    let u := String.mk (v.data.take n)
    if id128_is_valid u = false then st
    else
      let datadev := ext.fstab_node_to_udev_node (String.mk (v.data.drop (n + 1)))
      { st with
          arg_disks := set_device (get_or_create st.arg_disks u) u
            (fun d => { d with datadev := some datadev }) }

/-- Branch of parse_proc_cmdline_item for the luks.name switch. -/
def luks_name_apply (st : GenState) (v : String) : GenState :=
  match scan_uuid_eq v with
  | some uv =>
    { st with
        arg_disks := set_device (get_or_create st.arg_disks uv.1) uv.1
          (fun d => { d with create := true, name := some uv.2 })
        arg_whitelist := true }
  | none => st

/-- parse_proc_cmdline_item: one (key, value) kernel command line switch
applied to the process state.  A missing or malformed value is logged and
skipped without mutating any record (the C function returns 0 on every
path short of allocation failure). -/
def parse_proc_cmdline_item (ext : Ext) (st : GenState) (key : String) (value : Option String) :
    GenState :=
  if key = "luks" then luks_enable_apply st value
  else if key = "luks.crypttab" then luks_crypttab_apply st value
  else if key = "luks.uuid" then
    match value with
    | none => st
    | some v => luks_uuid_apply st v
  else if key = "luks.options" then
    match value with
    | none => st
    | some v => luks_options_apply st v
  else if key = "luks.key" then
    match value with
    | none => st
    | some v => luks_key_apply st v
  else if key = "luks.hdr" then
    match value with
    | none => st
    | some v => luks_hdr_apply ext st v
  else if key = "luks.data" then
    match value with
    | none => st
    | some v => luks_data_apply ext st v
  else if key = "luks.name" then
    match value with
    | none => st
    | some v => luks_name_apply st v
  else st

/-- proc_cmdline_parse: fold the item parser over the ordered switch
sequence. -/
def proc_cmdline_parse (ext : Ext) (st : GenState) (ps : List (String × Option String)) :
    GenState :=
  ps.foldl (fun s kv => parse_proc_cmdline_item ext s kv.1 kv.2) st

/-- A switch that turns on whitelist mode: a declare-device switch
(luks.uuid with a value) or a set-display-name switch (luks.name whose
value has the identifier=name shape). -/
def activates_whitelist (key : String) (value : Option String) : Bool :=
  match value with
  | none => false
  | some v => key == "luks.uuid" || (key == "luks.name" && (scan_uuid_eq v).isSome)

/-! ### Dependency classifier (print_dependencies) -/

/-- Ordering directive emitted into the unit for one auxiliary path. -/
inductive DepDirective where
  /-- Nothing is written. -/
  | nothing
  /-- After=systemd-random-seed.service. -/
  | afterRandomSeed
  /-- After= and Requires= on the named device unit. -/
  | deviceUnit (unit : String)
  /-- RequiresMountsFor= on the escaped path. -/
  | requiresMountsFor (path : String)
  deriving Repr, DecidableEq

/-- print_dependencies: classify one auxiliary path (password or detached
header) into the ordering directive written for it. -/
def print_dependencies (ext : Ext) (device_path : String) : DepDirective :=
  if device_path = "-" || device_path = "none" then .nothing
  else if path_equal device_path "/dev/urandom" || path_equal device_path "/dev/random"
       || path_equal device_path "/dev/hw_random" then .afterRandomSeed
  else
    let udev_node := ext.fstab_node_to_udev_node device_path
    if path_equal udev_node "/dev/null" then .nothing
    else if (path_startswith udev_node "/dev/").isSome then
      .deviceUnit (ext.unit_name_from_path udev_node ".device")
    else .requiresMountsFor (ext.specifier_escape device_path)

/-- Modelled from the spec (section 4.5 DependencyClassifier): classify
is a pure mapping from a path string to one ordering directive — the
literals "none" and "-" yield no directive; a recognized random-number
source path orders after the entropy-seeding point; a path resolving to
/dev/null yields no directive; a path resolving under the device-node
namespace yields After=/Requires= on its corresponding device unit; any
other path yields a requires-mount-for directive on the escaped path. -/
def classify_spec (ext : Ext) (path : String) : DepDirective :=
  if path = "none" || path = "-" then .nothing
  else if ["/dev/urandom", "/dev/random", "/dev/hw_random"].any (fun p => path_equal path p) then
    .afterRandomSeed
  else if path_equal (ext.fstab_node_to_udev_node path) "/dev/null" then .nothing
  else if (path_startswith (ext.fstab_node_to_udev_node path) "/dev/").isSome then
    .deviceUnit (ext.unit_name_from_path (ext.fstab_node_to_udev_node path) ".device")
  else .requiresMountsFor (ext.specifier_escape path)

/-! ### Auxiliary mount synthesis (generate_dev_mount) -/

/-- The auxiliary mount unit emitted for an external key or header
device.  DefaultDependencies=no is implicit in every such unit. -/
structure MountUnit where
  unit : String
  where_path : String
  what : String
  readonly : Bool
  deriving Repr, DecidableEq

/-- generate_dev_mount: derive the private mount directory under
/run/systemd/cryptsetup, namespaced by the type prefix and the escaped
name, and emit the mount unit for it. -/
def generate_dev_mount (ext : Ext) (name dev type_prefix : String) (readonly : Bool) :
    MountUnit :=
  let name_escaped := ext.cescape name
  let wp := "/run/systemd/cryptsetup/" ++ type_prefix ++ "-" ++ name_escaped
  ⟨ext.unit_name_from_path wp ".mount", wp, ext.fstab_node_to_udev_node dev, readonly⟩

/-! ### Unit synthesizer (create_disk) -/

/-- Rejections of create_disk.  tmpAndSwap and hdrdevWithoutHeader are
returned via the value of the log_error macro; keydevWithoutPassword is
an explicit -EINVAL.  nullDeref marks the two corner states in which the
C code would fault (path_join asserts a non-NULL path; print_dependencies
compares a NULL pointer) — reachable only through a valueless header
option word. -/
inductive CreateError where
  | tmpAndSwap
  | keydevWithoutPassword
  | hdrdevWithoutHeader
  | nullDeref
  deriving Repr, DecidableEq

/-- Argument tuple of one create_disk invocation. -/
structure SynthCall where
  name : String
  device : String
  keydev : Option String
  hdrdev : Option String
  password : Option String
  options : Option String
  deriving Repr, DecidableEq

/-- The activation unit artifact set emitted for one accepted device:
the directives of the unit file, the execution arguments, the auxiliary
mounts and the post-emission symlinks/drop-in. -/
structure DiskUnit where
  unitName : String
  afterPoint : String
  keydevMount : Option MountUnit
  hdrdevMount : Option MountUnit
  beforePoint : Option String
  passwordDep : Option DepDirective
  headerDep : Option DepDirective
  bindsToDevice : Option String
  requiresMountsForDevice : Option String
  swapBeforeMapper : Bool
  execName : String
  execDevice : String
  execPassword : String
  execOptions : String
  tmpPost : Bool
  swapPost : Bool
  keydevUnmount : Option String
  wantsDevice : Option String
  targetLink : Option (String × Bool)
  mapperRequires : String
  jobTimeoutDropIn : Bool
  deriving Repr, DecidableEq

/-- create_disk: synthesize the activation unit set for one device, or
reject it.  Follows the C control flow: option flags and the header=
sub-option are extracted first; the tmp/swap contradiction, a key device
without a password path, and a header device without a header option are
rejected before any unit file is opened; then the auxiliary mounts are
created, the password and header paths rewritten, and the unit record
assembled. -/
def create_disk (ext : Ext) (call : SynthCall) : Except CreateError DiskUnit :=
  let noauto := fstab_test_yes_no_option call.options "noauto" "auto"
  let nofail := fstab_test_yes_no_option call.options "nofail" "fail"
  let tmp := fstab_test_option call.options "tmp"
  let swap := fstab_test_option call.options "swap"
  let netdev := fstab_test_option call.options "_netdev"
  let hdr := fstab_filter_options call.options "header"
  if tmp && swap then .error .tmpAndSwap
  else
    let name_escaped := ext.specifier_escape call.name
    let e := ext.unit_name_escape call.name
    let u := ext.fstab_node_to_udev_node call.device
    let n := ext.unit_name_build "systemd-cryptsetup" e ".service"
    let u_escaped := ext.specifier_escape u
    let dunit := ext.unit_name_from_path u ".device"
    let password_escaped := call.password.map ext.specifier_escape
    if call.keydev.isSome && call.password.isNone then .error .keydevWithoutPassword
    else if call.hdrdev.isSome && !hdr.found then .error .hdrdevWithoutHeader
    else if call.hdrdev.isSome && hdr.value.isNone then
      -- A bare "header" word with a header device: path_join(NULL) would
      -- fail its assertion in the C code.
      .error .nullDeref
    else if call.hdrdev.isNone && hdr.found && hdr.value.isNone then
      -- A bare "header" word without a header device: print_dependencies
      -- would be handed a NULL path.
      .error .nullDeref
    else
      let kmount := call.keydev.map (fun kd => generate_dev_mount ext call.name kd "keydev" true)
      -- password is non-NULL here whenever keydev is set (guard above).
      let password2 := match kmount with
        | some m => some (ext.prefix_root m.where_path (password_escaped.getD ""))
        | none => password_escaped
      let hdrm := call.hdrdev.map (fun hd => generate_dev_mount ext call.name hd "hdrdev" false)
      let effOptions := match hdrm, hdr.value with
        | some m, some hpv =>
          let hp := ext.path_join m.where_path hpv
          some (hdr.filtered ++ (if hdr.filtered = "" then "header=" else ",header=") ++ hp)
        | _, _ => call.options
      let underDev := (path_startswith u "/dev/").isSome
      let filteredTs := ext.generator_write_timeouts effOptions
      .ok
        { unitName := n
          afterPoint := if netdev then "remote-fs-pre.target" else "cryptsetup-pre.target"
          keydevMount := kmount
          hdrdevMount := hdrm
          beforePoint :=
            if !nofail then some (if netdev then "remote-cryptsetup.target" else "cryptsetup.target")
            else none
          passwordDep := call.password.map (print_dependencies ext)
          headerDep :=
            if hdr.found && call.hdrdev.isNone then hdr.value.map (print_dependencies ext)
            else none
          bindsToDevice := if underDev then some dunit else none
          requiresMountsForDevice := if underDev then none else some u_escaped
          swapBeforeMapper := underDev && swap
          execName := name_escaped
          execDevice := u_escaped
          execPassword := password2.getD ""
          execOptions := (filteredTs.map ext.specifier_escape).getD ""
          tmpPost := tmp
          swapPost := swap
          keydevUnmount := kmount.map (fun m => m.where_path)
          wantsDevice := if !noauto then some dunit else none
          targetLink :=
            if !noauto then
              some ((if netdev then "remote-cryptsetup.target" else "cryptsetup.target"), nofail)
            else none
          mapperRequires := "dev-mapper-" ++ e ++ ".device"
          jobTimeoutDropIn := !noauto && !nofail }

/-! ### The table pass (add_crypttab_devices) -/

/-- Identifier resolution of one table line: a UUID= prefix on the
device field, then a by-uuid path prefix on the device field, then a
luks- prefix on the name field. -/
def crypttab_find_uuid (name device : String) : Option String :=
  match c_startswith device "UUID=" with
  | some u => some u
  | none =>
    match path_startswith device "/dev/disk/by-uuid/" with
    | some u => some u
    | none => c_startswith name "luks-"

/-- Registry lookup for one table line (hashmap_get on the resolved
identifier; no identifier means no record). -/
def crypttab_lookup (st : GenState) (name device : String) : Option crypto_device :=
  match crypttab_find_uuid name device with
  | some u => hashmap_get st.arg_disks u
  | none => none

/-- Outcome of one table line. -/
inductive LineResult where
  /-- Blank line or comment. -/
  | skipped
  /-- Field count rejected, processing continues. -/
  | badLine
  /-- Whitelist mode active and no matching record: informational skip. -/
  | notWhitelisted
  /-- Unit synthesized; carries the create_disk arguments, the artifact
  and the state after clearing the matched record's create flag. -/
  | ok (call : SynthCall) (unit : DiskUnit) (st' : GenState)
  /-- create_disk rejected the device; the error propagates. -/
  | failed (call : SynthCall) (e : CreateError)
  deriving Repr, DecidableEq

/-- The create_disk argument tuple of a line outcome, when the line got
as far as invoking the synthesizer. -/
def LineResult.call? : LineResult → Option SynthCall
  | .ok c _ _ => some c
  | .failed c _ => some c
  | _ => none

def LineResult.isSynthesized : LineResult → Bool
  | .ok _ _ _ => true
  | _ => false

/-- One iteration of the crypttab reading loop: strip the line, skip
blanks and comments, tokenize into at most four fields (the sscanf can
never yield more than four, so the k > 4 guard of the C code is dead and
surplus fields are silently dropped), resolve the identifier, apply the
whitelist policy, choose the effective options and synthesize. -/
def process_crypttab_line (ext : Ext) (st : GenState) (line : String) : LineResult :=
  let l := strstrip line
  if l.data.headD '\x00' == '\x00' || l.data.headD '\x00' == '#' then .skipped
  else
    let toks := cwords l
    let k := min toks.length 4
    if k < 2 || 4 < k then .badLine
    else
      let name := toks.getD 0 ""
      let device := toks.getD 1 ""
      let keyfile := toks.get? 2
      let options := toks.get? 3
      let d := crypttab_lookup st name device
      if st.arg_whitelist && d.isNone then .notWhitelisted
      else
        let effOpts := match d with
          | some dd => match dd.options with
            | some o => some o
            | none => options
          | none => options
        let call : SynthCall := ⟨name, device, none, none, keyfile, effOpts⟩
        match create_disk ext call with
        | .error e => .failed call e
        | .ok unit =>
          let st' := match d with
            | some dd =>
              { st with
                  arg_disks := set_device st.arg_disks dd.uuid
                    (fun x => { x with create := false }) }
            | none => st
          .ok call unit st'

/-- Accumulated output of a synthesis pass: the create_disk invocations
made, the units emitted, and the error that stopped the pass, if any. -/
structure PassOut where
  calls : List SynthCall
  units : List DiskUnit
  err : Option CreateError
  deriving Repr, DecidableEq

/-- Loop of add_crypttab_devices over the table lines.  A negative
create_disk return propagates out of the loop, abandoning all remaining
lines; every other outcome continues with the next line. -/
def add_crypttab_devices_go (ext : Ext) : GenState → List String → GenState × PassOut
  | st, [] => (st, ⟨[], [], none⟩)
  | st, l :: rest =>
    match process_crypttab_line ext st l with
    | .skipped => add_crypttab_devices_go ext st rest
    | .badLine => add_crypttab_devices_go ext st rest
    | .notWhitelisted => add_crypttab_devices_go ext st rest
    | .ok call unit st' =>
      let r := add_crypttab_devices_go ext st' rest
      (r.1, ⟨call :: r.2.calls, unit :: r.2.units, r.2.err⟩)
    | .failed call e => (st, ⟨[call], [], some e⟩)

/-- add_crypttab_devices: honor the luks.crypttab switch, then run the
table pass. -/
def add_crypttab_devices (ext : Ext) (st : GenState) (lines : List String) :
    GenState × PassOut :=
  if st.arg_read_crypttab then add_crypttab_devices_go ext st lines
  else (st, ⟨[], [], none⟩)

/-! ### The leftover pass (add_proc_cmdline_devices) -/

/-- The create_disk argument tuple synthesized for one flagged record in
the leftover pass: name falls back to "luks-" plus the identifier,
device to "UUID=" plus the identifier (unless a data device override is
stored), options to the process default and then to "timeout=0", and
keyfile to the process default. -/
def proc_cmdline_call (defOpts defKey : Option String) (d : crypto_device) : SynthCall :=
  let name := match d.name with
    | some nm => nm
    | none => "luks-" ++ d.uuid
  let device := "UUID=" ++ d.uuid
  let options := match d.options with
    | some o => o
    | none => match defOpts with
      | some o => o
      | none => "timeout=0"
  ⟨name, d.datadev.getD device, d.keydev, d.hdrdev, elvis d.keyfile defKey, some options⟩

/-- Loop of add_proc_cmdline_devices over the registry records.  Records
not flagged for creation are skipped; for a flagged record the fallback
name, device, options and keyfile are substituted and the unit
synthesized; a negative create_disk return propagates out of the loop.
The computed fallback name is persisted into the record (the C code
assigns d->name before the call). -/
def add_proc_cmdline_devices_go (ext : Ext) (defOpts defKey : Option String) :
    List crypto_device → List crypto_device × PassOut
  | [] => ([], ⟨[], [], none⟩)
  | d :: rest =>
    match d.create with
    | false =>
      let r := add_proc_cmdline_devices_go ext defOpts defKey rest
      (d :: r.1, r.2)
    | true =>
      let call := proc_cmdline_call defOpts defKey d
      let d' := { d with name := some call.name }
      match create_disk ext call with
      | .error e => (d' :: rest, ⟨[call], [], some e⟩)
      | .ok unit =>
        let r := add_proc_cmdline_devices_go ext defOpts defKey rest
        (d' :: r.1, ⟨call :: r.2.calls, unit :: r.2.units, r.2.err⟩)

/-- add_proc_cmdline_devices: synthesize every record still flagged for
creation, with the process-wide defaults as fallbacks. -/
def add_proc_cmdline_devices (ext : Ext) (st : GenState) : GenState × PassOut :=
  let r := add_proc_cmdline_devices_go ext st.arg_default_options st.arg_default_keyfile st.arg_disks
  ({ st with arg_disks := r.1 }, r.2)

/-! ### Concrete states used to run the model -/

/-- Registry state whose first flagged record is rejected by policy B
(key device, no keyfile) and whose second flagged record is plain. -/
def stateLeftoverAbort : GenState :=
  { initial_state with
      arg_disks :=
        [{ new_device "aaaa" with keydev := some "/dev/sdb", create := true },
         { new_device "bbbb" with create := true }] }

/-- Registry state holding one plain flagged record. -/
def stateOneFlagged : GenState :=
  { initial_state with arg_disks := [{ new_device "u1" with create := true }] }

/-- Registry state holding one record that carries its own options. -/
def stateRecordWithOptions : GenState :=
  { initial_state with
      arg_disks := [{ new_device "u1" with options := some "abc" }] }

/-! ### Helper lemmas about the registry -/

theorem contains_uuid_get_or_create (l : List crypto_device) (u : String) :
    contains_uuid (get_or_create l u) u = true := by
  unfold get_or_create
  split
  · assumption
  · unfold contains_uuid
    simp [new_device]

theorem get_or_create_of_contains (l : List crypto_device) (u : String)
    (h : contains_uuid l u = true) : get_or_create l u = l := by
  unfold get_or_create
  simp [h]

theorem contains_uuid_set_device (l : List crypto_device) (u u' : String)
    (f : crypto_device → crypto_device) (hf : ∀ d, (f d).uuid = d.uuid) :
    contains_uuid (set_device l u' f) u = contains_uuid l u := by
  unfold contains_uuid set_device
  induction l with
  | nil => rfl
  | cons d t ih =>
    simp only [List.map_cons, List.any_cons, ih]
    by_cases h : d.uuid = u' <;> simp [h, hf]

theorem set_device_set_device (l : List crypto_device) (u : String)
    (f : crypto_device → crypto_device) (hf : ∀ d, (f d).uuid = d.uuid)
    (hff : ∀ d, f (f d) = f d) :
    set_device (set_device l u f) u f = set_device l u f := by
  unfold set_device
  induction l with
  | nil => rfl
  | cons d t ih =>
    simp only [List.map_cons, ih, List.cons.injEq, and_true]
    by_cases h : d.uuid = u <;> simp [h, hf, hff]

/-! ### Branch equations of the command line parser -/

theorem parse_item_luks_uuid (ext : Ext) (st : GenState) (v : String) :
    parse_proc_cmdline_item ext st "luks.uuid" (some v) =
      { st with
          arg_disks :=
            set_device
              (get_or_create st.arg_disks
                (match c_startswith v "luks-" with | some rest => rest | none => v))
              (match c_startswith v "luks-" with | some rest => rest | none => v)
              (fun d => { d with create := true })
          arg_whitelist := true } := rfl

theorem parse_item_luks_options (ext : Ext) (st : GenState) (v : String) :
    parse_proc_cmdline_item ext st "luks.options" (some v) =
      (match scan_uuid_eq v with
       | some uv =>
         { st with
             arg_disks := set_device (get_or_create st.arg_disks uv.1) uv.1
               (fun d => { d with options := some uv.2 }) }
       | none => { st with arg_default_options := some v }) := rfl

theorem c_startswith_append (pre s : String) : c_startswith (pre ++ s) pre = some s := by
  cases pre with
  | mk p =>
    cases s with
    | mk q =>
      show c_startswith (String.mk (p ++ q)) (String.mk p) = some (String.mk q)
      unfold c_startswith
      simp

/-- C9: applying a luks.options switch with an identifier=options value
twice in succession yields the same process state as applying it once. -/
theorem luks_options_idempotent (ext : Ext) (st : GenState) (v u w : String)
    (h : scan_uuid_eq v = some (u, w)) :
    parse_proc_cmdline_item ext
        (parse_proc_cmdline_item ext st "luks.options" (some v)) "luks.options" (some v) =
      parse_proc_cmdline_item ext st "luks.options" (some v) := by
  rw [parse_item_luks_options, parse_item_luks_options, h]
  have hf : ∀ d : crypto_device,
      ((fun d : crypto_device => { d with options := some w }) d).uuid = d.uuid :=
    fun d => rfl
  have hff : ∀ d : crypto_device,
      (fun d : crypto_device => { d with options := some w })
          ((fun d : crypto_device => { d with options := some w }) d) =
        (fun d : crypto_device => { d with options := some w }) d := fun d => rfl
  have hc : contains_uuid
      (set_device (get_or_create st.arg_disks u) u
        (fun d : crypto_device => { d with options := some w })) u = true := by
    rw [contains_uuid_set_device _ u u
      (fun d : crypto_device => { d with options := some w }) hf]
    exact contains_uuid_get_or_create _ _
  simp only [get_or_create_of_contains _ _ hc]
  rw [set_device_set_device _ u
    (fun d : crypto_device => { d with options := some w }) hf hff]

/-- C9 witness: a concrete double application. -/
theorem luks_options_idempotent_witness :
    scan_uuid_eq "ab=x" = some ("ab", "x") ∧
    parse_proc_cmdline_item idExt
        (parse_proc_cmdline_item idExt initial_state "luks.options" (some "ab=x"))
        "luks.options" (some "ab=x") =
      parse_proc_cmdline_item idExt initial_state "luks.options" (some "ab=x") :=
  ⟨by decide, luks_options_idempotent idExt initial_state "ab=x" "ab" "x" (by decide)⟩

/-- C1: create_disk rejects the device — returning an error and
synthesizing no activation unit — whenever the options carry both the
tmp and the swap flag, or a key device is given without a password
path, or a header device is given while the options carry no header
option. -/
theorem create_disk_rejects (ext : Ext) (c : SynthCall)
    (h : (fstab_test_option c.options "tmp" = true ∧ fstab_test_option c.options "swap" = true)
       ∨ (c.keydev.isSome = true ∧ c.password.isNone = true)
       ∨ (c.hdrdev.isSome = true ∧ (fstab_filter_options c.options "header").found = false)) :
    ∃ e, create_disk ext c = Except.error e := by
  unfold create_disk
  rcases h with ⟨h1, h2⟩ | ⟨h1, h2⟩ | ⟨h1, h2⟩
  · exact ⟨.tmpAndSwap, by simp [h1, h2]⟩
  · by_cases ht : (fstab_test_option c.options "tmp" && fstab_test_option c.options "swap") = true
    · exact ⟨.tmpAndSwap, by simp [ht]⟩
    · exact ⟨.keydevWithoutPassword, by simp [ht, h1, h2]⟩
  · by_cases ht : (fstab_test_option c.options "tmp" && fstab_test_option c.options "swap") = true
    · exact ⟨.tmpAndSwap, by simp [ht]⟩
    · by_cases hk : (c.keydev.isSome && c.password.isNone) = true
      · exact ⟨.keydevWithoutPassword, by simp [ht, hk]⟩
      · exact ⟨.hdrdevWithoutHeader, by simp [ht, hk, h1, h2]⟩

/-- C1 witness: the three rejection shapes on concrete inputs. -/
theorem create_disk_rejects_witness :
    (∃ e, create_disk idExt ⟨"n", "d", none, none, none, some "tmp,swap"⟩ = Except.error e) ∧
    (∃ e, create_disk idExt ⟨"n", "d", some "/dev/sdb", none, none, none⟩ = Except.error e) ∧
    (∃ e, create_disk idExt ⟨"n", "d", none, some "/dev/sdc", none, some "x"⟩ = Except.error e) :=
  ⟨create_disk_rejects idExt _ (Or.inl ⟨by decide, by decide⟩),
   create_disk_rejects idExt _ (Or.inr (Or.inl ⟨by decide, by decide⟩)),
   create_disk_rejects idExt _ (Or.inr (Or.inr ⟨by decide, by decide⟩))⟩

/-- C8: the dependency classifier agrees, on every path and every choice
of external collaborators, with the mapping the specification describes:
the literals "-" and "none" yield no directive, the recognized
random-number sources order after the entropy-seeding service, a path
resolving to /dev/null yields no directive, a path resolving under /dev/
yields After=/Requires= on its device unit, and any other path yields a
RequiresMountsFor= directive on the escaped path. -/
theorem print_dependencies_matches_spec (ext : Ext) (p : String) :
    print_dependencies ext p = classify_spec ext p := by
  unfold print_dependencies classify_spec
  simp only [List.any_cons, List.any_nil, Bool.or_false]
  by_cases h1 : p = "-" <;> by_cases h2 : p = "none" <;>
    simp [h1, h2] <;>
  by_cases h3 : path_equal p "/dev/urandom" = true <;>
  by_cases h4 : path_equal p "/dev/random" = true <;>
  by_cases h5 : path_equal p "/dev/hw_random" = true <;>
    simp [h3, h4, h5]

theorem luks_enable_apply_whitelist (st : GenState) (w : Option String)
    (h : st.arg_whitelist = true) : (luks_enable_apply st w).arg_whitelist = true := by
  unfold luks_enable_apply
  (repeat' split) <;> exact h

theorem luks_crypttab_apply_whitelist (st : GenState) (w : Option String)
    (h : st.arg_whitelist = true) : (luks_crypttab_apply st w).arg_whitelist = true := by
  unfold luks_crypttab_apply
  (repeat' split) <;> exact h

theorem luks_uuid_apply_whitelist (st : GenState) (v : String) :
    (luks_uuid_apply st v).arg_whitelist = true := rfl

theorem luks_options_apply_whitelist (st : GenState) (v : String)
    (h : st.arg_whitelist = true) : (luks_options_apply st v).arg_whitelist = true := by
  unfold luks_options_apply
  (repeat' split) <;> exact h

theorem luks_key_apply_whitelist (st : GenState) (v : String)
    (h : st.arg_whitelist = true) : (luks_key_apply st v).arg_whitelist = true := by
  simp only [luks_key_apply]
  (repeat' split) <;> exact h

theorem luks_hdr_apply_whitelist (ext : Ext) (st : GenState) (v : String)
    (h : st.arg_whitelist = true) : (luks_hdr_apply ext st v).arg_whitelist = true := by
  simp only [luks_hdr_apply]
  (repeat' split) <;> exact h

theorem luks_data_apply_whitelist (ext : Ext) (st : GenState) (v : String)
    (h : st.arg_whitelist = true) : (luks_data_apply ext st v).arg_whitelist = true := by
  simp only [luks_data_apply]
  (repeat' split) <;> exact h

theorem luks_name_apply_whitelist (st : GenState) (v : String)
    (h : st.arg_whitelist = true) : (luks_name_apply st v).arg_whitelist = true := by
  unfold luks_name_apply
  (repeat' split) <;> first | exact h | rfl

theorem parse_item_whitelist_mono (ext : Ext) (st : GenState) (k : String) (v : Option String)
    (h : st.arg_whitelist = true) :
    (parse_proc_cmdline_item ext st k v).arg_whitelist = true := by
  unfold parse_proc_cmdline_item
  split_ifs <;> (repeat' split) <;>
    first
    | exact h
    | exact luks_enable_apply_whitelist _ _ h
    | exact luks_crypttab_apply_whitelist _ _ h
    | exact luks_uuid_apply_whitelist _ _
    | exact luks_options_apply_whitelist _ _ h
    | exact luks_key_apply_whitelist _ _ h
    | exact luks_hdr_apply_whitelist ext _ _ h
    | exact luks_data_apply_whitelist ext _ _ h
    | exact luks_name_apply_whitelist _ _ h

theorem parse_item_whitelist_activate (ext : Ext) (st : GenState) (k : String)
    (v : Option String) (h : activates_whitelist k v = true) :
    (parse_proc_cmdline_item ext st k v).arg_whitelist = true := by
  unfold activates_whitelist at h
  rcases v with _ | v
  · simp at h
  · simp only [Bool.or_eq_true, Bool.and_eq_true, beq_iff_eq] at h
    rcases h with h | ⟨h, hs⟩
    · subst h
      rw [parse_item_luks_uuid]
    · subst h
      rcases Option.isSome_iff_exists.mp hs with ⟨uv, huv⟩
      simp [parse_proc_cmdline_item, luks_name_apply, huv]

theorem proc_cmdline_parse_whitelist_mono (ext : Ext) (st : GenState)
    (ps : List (String × Option String)) (h : st.arg_whitelist = true) :
    (proc_cmdline_parse ext st ps).arg_whitelist = true := by
  induction ps generalizing st with
  | nil => exact h
  | cons kv rest ih =>
    rw [proc_cmdline_parse, List.foldl_cons]
    exact ih _ (parse_item_whitelist_mono ext st kv.1 kv.2 h)

theorem proc_cmdline_parse_whitelist_of_mem (ext : Ext) (st : GenState)
    (ps : List (String × Option String)) (kv : String × Option String)
    (hmem : kv ∈ ps) (hact : activates_whitelist kv.1 kv.2 = true) :
    (proc_cmdline_parse ext st ps).arg_whitelist = true := by
  obtain ⟨s, t, rfl⟩ := List.append_of_mem hmem
  rw [proc_cmdline_parse, List.foldl_append, List.foldl_cons]
  exact proc_cmdline_parse_whitelist_mono ext _ t
    (parse_item_whitelist_activate ext _ _ _ hact)

/-- C2: once any declare-device (luks.uuid) or set-display-name
(luks.name with identifier=name shape) switch has been processed,
whitelist mode is active, and a well-formed table line whose resolved
identifier finds no record in the registry is skipped with an
informational log and never synthesized. -/
theorem whitelist_blocks_unknown_entries (ext : Ext) (st0 : GenState)
    (ps : List (String × Option String)) (kv : String × Option String)
    (line name device : String) (rest : List String)
    (hmem : kv ∈ ps) (hact : activates_whitelist kv.1 kv.2 = true)
    (h0 : ((strstrip line).data.headD '\x00' == '\x00'
           || (strstrip line).data.headD '\x00' == '#') = false)
    (htoks : cwords (strstrip line) = name :: device :: rest)
    (hlook : crypttab_lookup (proc_cmdline_parse ext st0 ps) name device = none) :
    (proc_cmdline_parse ext st0 ps).arg_whitelist = true ∧
    process_crypttab_line ext (proc_cmdline_parse ext st0 ps) line =
      LineResult.notWhitelisted := by
  have hw := proc_cmdline_parse_whitelist_of_mem ext st0 ps kv hmem hact
  refine ⟨hw, ?_⟩
  unfold process_crypttab_line
  have h0' : ¬ (strstrip line).data.head?.getD '\x00' = '\x00' ∧
             ¬ (strstrip line).data.head?.getD '\x00' = '#' := by
    simpa using h0
  have hk1 : ¬ (min (rest.length + 1 + 1) 4 < 2) := by omega
  have hk2 : ¬ (4 < min (rest.length + 1 + 1) 4) := by omega
  simp [h0'.1, h0'.2, htoks, hk1, hk2, hlook, hw]

/-- C2 witness: a declare-device switch followed by an uncorrelated
table line. -/
theorem whitelist_blocks_unknown_entries_witness :
    (proc_cmdline_parse idExt initial_state [("luks.uuid", some "abc")]).arg_whitelist = true ∧
    process_crypttab_line idExt
        (proc_cmdline_parse idExt initial_state [("luks.uuid", some "abc")]) "foo bar" =
      LineResult.notWhitelisted :=
  whitelist_blocks_unknown_entries idExt initial_state [("luks.uuid", some "abc")]
    ("luks.uuid", some "abc") "foo bar" "foo" "bar" []
    (by decide) (by decide) (by decide) (by decide) (by decide)

/-- C10 counterexample: for the identifier X = "luks-a" the two
spellings do not have the same effect — luks.uuid=luks-a creates the
record keyed "a" (the prefix is stripped), while luks.uuid=luks-luks-a
creates the record keyed "luks-a". -/
theorem luks_uuid_prefix_counterexample :
    parse_proc_cmdline_item idExt initial_state "luks.uuid" (some ("luks-" ++ "luks-a")) ≠
      parse_proc_cmdline_item idExt initial_state "luks.uuid" (some "luks-a") ∧
    (parse_proc_cmdline_item idExt initial_state "luks.uuid" (some "luks-a")).arg_disks.map
        (fun d => d.uuid) = ["a"] := by
  constructor
  · decide
  · decide

/-- C10 amended: when the identifier X does not itself begin with
"luks-", the switches luks.uuid=luks-X and luks.uuid=X have the same
effect on the process state, and both leave the record keyed X present
and flagged for creation. -/
theorem luks_uuid_prefix_equiv (ext : Ext) (st : GenState) (X : String)
    (h : c_startswith X "luks-" = none) :
    parse_proc_cmdline_item ext st "luks.uuid" (some ("luks-" ++ X)) =
      parse_proc_cmdline_item ext st "luks.uuid" (some X) ∧
    contains_uuid (parse_proc_cmdline_item ext st "luks.uuid" (some X)).arg_disks X = true := by
  constructor
  · rw [parse_item_luks_uuid, parse_item_luks_uuid, c_startswith_append, h]
  · rw [parse_item_luks_uuid, h]
    show contains_uuid
      (set_device (get_or_create st.arg_disks X) X
        (fun d : crypto_device => { d with create := true })) X = true
    rw [contains_uuid_set_device _ X X
      (fun d : crypto_device => { d with create := true }) (fun d => rfl)]
    exact contains_uuid_get_or_create _ _

/-- C7: a luks.key, luks.hdr or luks.data switch whose value has the
identifier=value shape but whose identifier part (the maximal run of
alphanumeric/dash characters before the equals sign) is not a valid
128-bit UUID is rejected with a warning and leaves the whole process
state — in particular every registry record — unchanged. -/
theorem invalid_uuid_no_mutation (ext : Ext) (st : GenState) (k v : String)
    (hk : k = "luks.key" ∨ k = "luks.hdr" ∨ k = "luks.data")
    (hshape : (v.data.getD (v.data.takeWhile isAlnumDashC).length '\x00' == '=') = true)
    (hinvalid :
      id128_is_valid (String.mk (v.data.take (v.data.takeWhile isAlnumDashC).length)) = false) :
    parse_proc_cmdline_item ext st k (some v) = st := by
  rcases hk with hk | hk | hk <;> subst hk <;>
    simp_all [parse_proc_cmdline_item, luks_key_apply, luks_hdr_apply, luks_data_apply]

/-- C7 witness: the identifier "zz" is not a valid UUID. -/
theorem invalid_uuid_no_mutation_witness :
    ("luks.key" = "luks.key" ∨ "luks.key" = "luks.hdr" ∨ "luks.key" = "luks.data") ∧
    parse_proc_cmdline_item idExt initial_state "luks.key" (some "zz=path") = initial_state :=
  ⟨Or.inl rfl,
   invalid_uuid_no_mutation idExt initial_state "luks.key" "zz=path" (Or.inl rfl)
     (by decide) (by decide)⟩

/-- C10 amended witness: a concrete identifier without the prefix. -/
theorem luks_uuid_prefix_equiv_witness :
    c_startswith "abc" "luks-" = none ∧
    (parse_proc_cmdline_item idExt initial_state "luks.uuid" (some ("luks-" ++ "abc")) =
       parse_proc_cmdline_item idExt initial_state "luks.uuid" (some "abc") ∧
     contains_uuid
       (parse_proc_cmdline_item idExt initial_state "luks.uuid" (some "abc")).arg_disks "abc"
         = true) :=
  ⟨by decide, luks_uuid_prefix_equiv idExt initial_state "abc" (by decide)⟩

/-- C5: when a table line cross-references a registry record, the
create_disk invocation for that line takes the record's options string
whenever the record carries one, and the line's own options field (its
fourth token) otherwise. -/
theorem record_options_override (ext : Ext) (st : GenState) (line name device : String)
    (rest : List String) (u0 : String) (d : crypto_device)
    (h0 : ((strstrip line).data.headD '\x00' == '\x00'
           || (strstrip line).data.headD '\x00' == '#') = false)
    (htoks : cwords (strstrip line) = name :: device :: rest)
    (hu : crypttab_find_uuid name device = some u0)
    (hd : hashmap_get st.arg_disks u0 = some d) :
    ∃ c, (process_crypttab_line ext st line).call? = some c ∧
      c.options = elvis d.options (rest.get? 1) := by
  unfold process_crypttab_line
  have h0' : ¬ (strstrip line).data.head?.getD '\x00' = '\x00' ∧
             ¬ (strstrip line).data.head?.getD '\x00' = '#' := by
    simpa using h0
  have hk1 : ¬ (min (rest.length + 1 + 1) 4 < 2) := by omega
  have hk2 : ¬ (4 < min (rest.length + 1 + 1) 4) := by omega
  have hlk : crypttab_lookup st name device = some d := by
    unfold crypttab_lookup
    rw [hu]
    exact hd
  simp [h0'.1, h0'.2, htoks, hk1, hk2, hlk]
  refine ⟨⟨name, device, none, none, rest[0]?,
    match d.options with
    | some o => some o
    | none => rest[1]?⟩, ?_, ?_⟩
  · split <;> rfl
  · cases d.options <;> simp [elvis]

/-- C5 witness: a record carrying options "abc" overrides the line's
options field. -/
theorem record_options_override_witness :
    ∃ c, (process_crypttab_line idExt stateRecordWithOptions "luks-u1 /dev/sda x y").call?
        = some c ∧
      c.options = elvis (some "abc") (["x", "y"].get? 1) :=
  record_options_override idExt stateRecordWithOptions "luks-u1 /dev/sda x y"
    "luks-u1" "/dev/sda" ["x", "y"] "u1"
    { new_device "u1" with options := some "abc" }
    (by decide) (by decide) (by decide) (by decide)

/-- C6 counterexample: a line with five whitespace-separated fields is
not rejected — the sscanf can return at most four conversions, so the
line is processed with its first four fields and a unit is synthesized
for it. -/
theorem crypttab_five_fields_counterexample :
    (process_crypttab_line idExt initial_state "a b c d e").isSynthesized = true ∧
    ((add_crypttab_devices idExt initial_state ["a b c d e"]).2.units).length = 1 := by
  constructor
  · decide
  · decide

theorem crypttab_synth_result_ne_badLine (c : SynthCall) (s : GenState)
    (res : Except CreateError DiskUnit) :
    (match res with
     | .error e => LineResult.failed c e
     | .ok u => LineResult.ok c u s) ≠ LineResult.badLine := by
  cases res <;> simp

/-- C6 amended: a non-blank non-comment line is rejected for its field
count exactly when it has fewer than two fields (the field count can
never exceed four, so no line is rejected for having too many), and a
rejected line contributes nothing while processing continues with the
remaining lines. -/
theorem crypttab_field_count_policy (ext : Ext) (st : GenState) (line : String)
    (rest : List String)
    (h0 : ((strstrip line).data.headD '\x00' == '\x00'
           || (strstrip line).data.headD '\x00' == '#') = false) :
    ((process_crypttab_line ext st line = LineResult.badLine) ↔
      (cwords (strstrip line)).length < 2) ∧
    ((cwords (strstrip line)).length < 2 →
      add_crypttab_devices_go ext st (line :: rest) = add_crypttab_devices_go ext st rest) := by
  have h0' : ¬ (strstrip line).data.head?.getD '\x00' = '\x00' ∧
             ¬ (strstrip line).data.head?.getD '\x00' = '#' := by
    simpa using h0
  have hiff : (process_crypttab_line ext st line = LineResult.badLine) ↔
      (cwords (strstrip line)).length < 2 := by
    by_cases hlen : (cwords (strstrip line)).length < 2
    · have hcond : min (cwords (strstrip line)).length 4 < 2 := by omega
      unfold process_crypttab_line
      simp [h0'.1, h0'.2, hcond, hlen]
    · have hc1 : ¬ (min (cwords (strstrip line)).length 4 < 2) := by omega
      have hc2 : ¬ (4 < min (cwords (strstrip line)).length 4) := by omega
      have hne : process_crypttab_line ext st line ≠ LineResult.badLine := by
        unfold process_crypttab_line
        simp [h0'.1, h0'.2, hc1, hc2]
        by_cases hwl : st.arg_whitelist = true ∧
            crypttab_lookup st ((cwords (strstrip line))[0]?.getD "")
              ((cwords (strstrip line))[1]?.getD "") = none
        · rw [if_pos hwl]
          simp
        · rw [if_neg hwl]
          exact crypttab_synth_result_ne_badLine _ _ _
      simp [hne, hlen]
  refine ⟨hiff, fun hlen => ?_⟩
  have hbad := hiff.mpr hlen
  show (match process_crypttab_line ext st line with
        | .skipped => add_crypttab_devices_go ext st rest
        | .badLine => add_crypttab_devices_go ext st rest
        | .notWhitelisted => add_crypttab_devices_go ext st rest
        | .ok call unit st' =>
          let r := add_crypttab_devices_go ext st' rest
          (r.1, ⟨call :: r.2.calls, unit :: r.2.units, r.2.err⟩)
        | .failed call e => (st, ⟨[call], [], some e⟩)) =
      add_crypttab_devices_go ext st rest
  rw [hbad]

/-- C6 amended witness: a one-field line is rejected and skipped. -/
theorem crypttab_field_count_policy_witness :
    ((process_crypttab_line idExt initial_state "solo" = LineResult.badLine) ↔
      (cwords (strstrip "solo")).length < 2) ∧
    ((cwords (strstrip "solo")).length < 2 →
      add_crypttab_devices_go idExt initial_state ("solo" :: ["a b"]) =
        add_crypttab_devices_go idExt initial_state ["a b"]) :=
  crypttab_field_count_policy idExt initial_state "solo" ["a b"] (by decide)

/-- C3 counterexample: a policy rejection in the leftover pass does not
merely skip the offending record — it aborts the pass, so the second
flagged record (uuid bbbb), although it would synthesize cleanly, yields
no unit. -/
theorem leftover_pass_abort_counterexample :
    (add_proc_cmdline_devices idExt stateLeftoverAbort).2.units = [] ∧
    (add_proc_cmdline_devices idExt stateLeftoverAbort).2.err =
      some CreateError.keydevWithoutPassword ∧
    stateLeftoverAbort.arg_disks.any (fun d => d.uuid == "bbbb" && d.create) = true := by
  refine ⟨by decide, by decide, by decide⟩

/-- C3 amended: the error-propagation behaviour is symmetric — in the
table pass and in the leftover pass alike, a negative create_disk
return aborts processing of every subsequent item of the batch. -/
theorem pass_abort_propagates (ext : Ext) (st : GenState) (xs ys : List String)
    (defO defK : Option String) (ds ds' : List crypto_device) :
    ((add_crypttab_devices_go ext st xs).2.err.isSome = true →
      (add_crypttab_devices_go ext st (xs ++ ys)).2 = (add_crypttab_devices_go ext st xs).2) ∧
    ((add_proc_cmdline_devices_go ext defO defK ds).2.err.isSome = true →
      (add_proc_cmdline_devices_go ext defO defK (ds ++ ds')).2 =
        (add_proc_cmdline_devices_go ext defO defK ds).2) := by
  constructor
  · induction xs generalizing st with
    | nil => intro h; simp [add_crypttab_devices_go] at h
    | cons l t ih =>
      intro h
      rw [List.cons_append]
      cases hp : process_crypttab_line ext st l <;>
          simp only [add_crypttab_devices_go, hp] at h ⊢ <;>
        first
        | rfl
        | exact ih _ h
        | rw [ih _ h]
  · induction ds with
    | nil => intro h; simp [add_proc_cmdline_devices_go] at h
    | cons d t ih =>
      intro h
      rw [List.cons_append]
      cases hcreate : d.create <;>
        simp only [add_proc_cmdline_devices_go, hcreate] at h ⊢
      · exact ih h
      · cases hcd : create_disk ext (proc_cmdline_call defO defK d) <;>
          simp only [hcd] at h ⊢ <;>
        first
        | rfl
        | rw [ih h]

/-- C3 amended witness: a table line rejected for tmp,swap aborts the
remaining table lines, and a rejected leftover record aborts the
remaining records. -/
theorem pass_abort_propagates_witness :
    ((add_crypttab_devices_go idExt initial_state
        (["k1 /dev/sda kf tmp,swap"] ++ ["a b"])).2 =
      (add_crypttab_devices_go idExt initial_state ["k1 /dev/sda kf tmp,swap"]).2) ∧
    ((add_proc_cmdline_devices_go idExt none none
        ([{ new_device "aaaa" with keydev := some "/dev/sdb", create := true }] ++
         [{ new_device "bbbb" with create := true }])).2 =
      (add_proc_cmdline_devices_go idExt none none
        [{ new_device "aaaa" with keydev := some "/dev/sdb", create := true }]).2) :=
  ⟨(pass_abort_propagates idExt initial_state ["k1 /dev/sda kf tmp,swap"] ["a b"]
      none none [] []).1 (by decide),
   (pass_abort_propagates idExt initial_state [] [] none none
      [{ new_device "aaaa" with keydev := some "/dev/sdb", create := true }]
      [{ new_device "bbbb" with create := true }]).2 (by decide)⟩

/-- Per-record contract of the leftover pass: when the pass completes
without error, every record flagged for creation contributed exactly the
fallback-substituted create_disk invocation. -/
theorem leftover_pass_calls_go (ext : Ext) (defO defK : Option String)
    (ds : List crypto_device)
    (herr : (add_proc_cmdline_devices_go ext defO defK ds).2.err = none) :
    ∀ d ∈ ds, d.create = true →
      proc_cmdline_call defO defK d ∈ (add_proc_cmdline_devices_go ext defO defK ds).2.calls := by
  induction ds with
  | nil =>
    intro d hd
    cases hd
  | cons d0 t ih =>
    intro d hd hc
    cases hc0 : d0.create <;>
      simp only [add_proc_cmdline_devices_go, hc0] at herr ⊢
    · rcases List.mem_cons.mp hd with rfl | hdt
      · rw [hc0] at hc
        exact Bool.noConfusion hc
      · exact ih herr d hdt hc
    · cases hcd : create_disk ext (proc_cmdline_call defO defK d0) <;>
        simp only [hcd] at herr ⊢
      · exact absurd herr (by simp)
      · rcases List.mem_cons.mp hd with rfl | hdt
        · exact List.mem_cons_self _ _
        · exact List.mem_cons_of_mem _ (ih herr d hdt hc)

/-- C4: for every record still flagged mustCreate when the leftover pass
runs, if the pass completes without error then a unit was synthesized
for it from exactly the fallback fields: the record's name or
"luks-" plus the identifier; the record's data device or "UUID=" plus
the identifier; the record's options, else the process default options,
else "timeout=0"; the record's keyfile, else the process default
keyfile. -/
theorem leftover_pass_defaults (ext : Ext) (st : GenState)
    (herr : (add_proc_cmdline_devices ext st).2.err = none) (d : crypto_device)
    (hd : d ∈ st.arg_disks) (hc : d.create = true) :
    proc_cmdline_call st.arg_default_options st.arg_default_keyfile d ∈
      (add_proc_cmdline_devices ext st).2.calls ∧
    proc_cmdline_call st.arg_default_options st.arg_default_keyfile d =
      ⟨(match d.name with | some nm => nm | none => "luks-" ++ d.uuid),
       (match d.datadev with | some dd => dd | none => "UUID=" ++ d.uuid),
       d.keydev, d.hdrdev,
       (match d.keyfile with | some kf => some kf | none => st.arg_default_keyfile),
       some (match d.options with
             | some o => o
             | none =>
               match st.arg_default_options with
               | some o => o
               | none => "timeout=0")⟩ := by
  constructor
  · exact leftover_pass_calls_go ext st.arg_default_options st.arg_default_keyfile
      st.arg_disks herr d hd hc
  · unfold proc_cmdline_call elvis
    cases d.datadev <;> cases d.keyfile <;> rfl

/-- C4 witness: a single flagged record with no fields set synthesizes
with all fallbacks. -/
theorem leftover_pass_defaults_witness :
    proc_cmdline_call none none { new_device "u1" with create := true } ∈
      (add_proc_cmdline_devices idExt stateOneFlagged).2.calls ∧
    proc_cmdline_call none none { new_device "u1" with create := true } =
      (⟨"luks-u1", "UUID=u1", none, none, none, some "timeout=0"⟩ : SynthCall) := by
  have h := leftover_pass_defaults idExt stateOneFlagged (by decide)
    { new_device "u1" with create := true } (by decide) (by decide)
  exact ⟨h.1, h.2⟩

end CryptsetupGen
